import Mathlib

/-!
Verification development for the MV3 capture/decrypt sidebar engine.

The background capture engine (`src/background/index.ts`) and the panel-side
message validators (side panel app) are shallowly embedded here.  JavaScript
wire values are modelled by `WireVal`; JS numbers that the code ever inspects
are integers, with a separate constructor standing for non-finite numbers so
that the `Number.isFinite` guard in `asNumber` is faithful.  Asynchronous
debugger commands are modelled by passing the command result in as an
`Except` oracle, and each operation additionally reports the list of external
commands it issued.
-/

set_option maxHeartbeats 1000000

namespace MvCapture

/-- A JavaScript value as seen over the message wire: `undefined`, `null`,
booleans, finite numbers (integer-valued), non-finite numbers, strings,
arrays, and plain objects (ordered field lists). -/
inductive WireVal where
  | vundefined : WireVal
  | vnull : WireVal
  | vbool (b : Bool) : WireVal
  | vnum (n : Int) : WireVal
  | vnan : WireVal
  | vstr (s : String) : WireVal
  | varr (elems : List WireVal) : WireVal
  | vobj (fields : List (String × WireVal)) : WireVal

/-- The `isRecord` guard: the typeof-object test that also lets null through is negated by a null check; arrays count as objects.
Arrays are objects in JavaScript, so they pass this guard too. -/
def isRecord : WireVal → Bool
  | .vobj _ => true
  | .varr _ => true
  | _ => false

/-- First-match lookup in an object field list; a missing key reads as
`undefined`. -/
def lookupField : List (String × WireVal) → String → WireVal
  | [], _ => .vundefined
  | (k, v) :: rest, key => if k = key then v else lookupField rest key

/-- Property access `value.key`: objects look up the field, everything else
(including arrays, whose relevant accesses in this code are all misses)
yields `undefined`. -/
def getField : WireVal → String → WireVal
  | .vobj fields, key => lookupField fields key
  | _, _ => .vundefined

/-- The `asString` helper: a string value is kept, anything else reads as null. -/
def asString : WireVal → Option String
  | .vstr s => some s
  | _ => none

/-- The `asNumber` helper: a finite number is kept, anything else (including
non-finite numbers) reads as null. -/
def asNumber : WireVal → Option Int
  | .vnum n => some n
  | _ => none

/-- The `asBoolean` helper: a boolean value is kept, anything else reads as null. -/
def asBoolean : WireVal → Option Bool
  | .vbool b => some b
  | _ => none

/-- JavaScript truthiness applied to an `asString` result: the guards of the
form `if (!s) return null` reject both `null` and the empty string. -/
def strOk : Option String → Option String
  | some s => if s = "" then none else some s
  | none => none

/-- Structured error value `{code, message, cause}` from `shared/messages.ts`;
`cause` is an opaque wire value, `vundefined` when absent. -/
structure AppError where
  code : String
  message : String
  cause : WireVal

/-- Response body value from `shared/messages.ts`. -/
structure ResponseBody where
  text : Option String
  isBase64 : Bool
  truncated : Bool
  error : Option AppError

/-- Request body value from `shared/messages.ts`. -/
structure RequestBody where
  text : Option String
  truncated : Bool
  error : Option AppError

/-- A completed capture record from `shared/messages.ts`. -/
structure ResponseRecord where
  id : String
  url : String
  method : String
  status : Int
  mimeType : String
  resourceType : String
  timeStamp : Int
  encodedDataLength : Int
  requestBody : RequestBody
  body : ResponseBody

/-- Background-to-panel message union from `shared/messages.ts`. -/
inductive BackgroundToPanelMessage where
  | statusUpdate (attachedTabId : Option Int)
  | recordsSnapshot (records : List ResponseRecord) (attachedTabId : Option Int)
  | recordsAdded (record : ResponseRecord)
  | errorMessage (error : AppError)

/-! ## Panel-side validators (side panel app) -/

/-- Panel-side `parseAppError`: requires truthy `code` and `message`; keeps
`cause` as-is (the cause property when present, undefined otherwise). -/
def parseAppError (value : WireVal) : Option AppError :=
  if isRecord value then
    match strOk (asString (getField value "code")), strOk (asString (getField value "message")) with
    | some code, some message => some ⟨code, message, getField value "cause"⟩
    | _, _ => none
  else none

/-- The shared text-field rule of the body parsers: `null` stays absent, a
string is kept, anything else rejects the body. -/
def parseOptText : WireVal → Option (Option String)
  | .vnull => some none
  | v =>
    match asString v with
    | some s => some (some s)
    | none => none

/-- Panel-side `parseResponseBody`. -/
def parseResponseBody (value : WireVal) : Option ResponseBody :=
  if isRecord value then
    match parseOptText (getField value "text") with
    | none => none
    | some text =>
      match asBoolean (getField value "isBase64"), asBoolean (getField value "truncated") with
      | some isBase64, some truncated =>
        match getField value "error" with
        | .vundefined => some ⟨text, isBase64, truncated, none⟩
        | errValue =>
          match parseAppError errValue with
          | none => none
          | some e => some ⟨text, isBase64, truncated, some e⟩
      | _, _ => none
  else none

/-- Panel-side `parseRequestBody`. -/
def parseRequestBody (value : WireVal) : Option RequestBody :=
  if isRecord value then
    match parseOptText (getField value "text") with
    | none => none
    | some text =>
      match asBoolean (getField value "truncated") with
      | some truncated =>
        match getField value "error" with
        | .vundefined => some ⟨text, truncated, none⟩
        | errValue =>
          match parseAppError errValue with
          | none => none
          | some e => some ⟨text, truncated, some e⟩
      | none => none
  else none

/-- Panel-side `parseResponseRecord`: all five string fields must be truthy
(non-empty), the three numeric fields must be finite numbers, and both bodies
must validate. -/
def parseResponseRecord (value : WireVal) : Option ResponseRecord :=
  if isRecord value then
    match strOk (asString (getField value "id")), strOk (asString (getField value "url")),
          strOk (asString (getField value "method")), asNumber (getField value "status"),
          strOk (asString (getField value "mimeType")), strOk (asString (getField value "resourceType")),
          asNumber (getField value "timeStamp"), asNumber (getField value "encodedDataLength") with
    | some id, some url, some method, some status, some mimeType, some resourceType,
      some timeStamp, some encodedDataLength =>
      match parseRequestBody (getField value "requestBody"), parseResponseBody (getField value "body") with
      | some requestBody, some body =>
        some ⟨id, url, method, status, mimeType, resourceType, timeStamp, encodedDataLength,
              requestBody, body⟩
      | _, _ => none
    | _, _, _, _, _, _, _, _ => none
  else none

/-- The `attachedTabId` rule shared by `status.update` and `records.snapshot`:
a finite number parses, a literal `null` is kept as none, anything else
rejects the message. -/
def parseAttachedTabId : WireVal → Option (Option Int)
  | .vnull => some none
  | .vnum n => some (some n)
  | _ => none

/-- The record-list loop of the `records.snapshot` arm: every element must
parse or the whole message is rejected. -/
def parseRecordList : List WireVal → Option (List ResponseRecord)
  | [] => some []
  | v :: rest =>
    match parseResponseRecord v with
    | none => none
    | some r =>
      match parseRecordList rest with
      | none => none
      | some rs => some (r :: rs)

/-- Panel-side `parseBackgroundMessage`, the inbound validator for all four
outbound message kinds. -/
def parseBackgroundMessage (value : WireVal) : Option BackgroundToPanelMessage :=
  if isRecord value then
    match strOk (asString (getField value "type")) with
    | none => none
    | some messageType =>
      if messageType = "status.update" then
        match parseAttachedTabId (getField value "attachedTabId") with
        | none => none
        | some attachedTabId => some (.statusUpdate attachedTabId)
      else if messageType = "records.snapshot" then
        match getField value "records" with
        | .varr records =>
          match parseAttachedTabId (getField value "attachedTabId") with
          | none => none
          | some attachedTabId =>
            match parseRecordList records with
            | none => none
            | some parsedRecords => some (.recordsSnapshot parsedRecords attachedTabId)
        | _ => none
      else if messageType = "records.added" then
        match parseResponseRecord (getField value "record") with
        | none => none
        | some record => some (.recordsAdded record)
      else if messageType = "error" then
        match parseAppError (getField value "error") with
        | none => none
        | some e => some (.errorMessage e)
      else none
  else none

/-! ## Wire encodings of the engine-constructed objects -/

/-- Wire shape of an `AppError` object literal. -/
def encodeAppError (e : AppError) : WireVal :=
  .vobj [("code", .vstr e.code), ("message", .vstr e.message), ("cause", e.cause)]

/-- Wire shape of a nullable text field. -/
def encodeOptText : Option String → WireVal
  | none => .vnull
  | some s => .vstr s

/-- The optional `error` property: omitted entirely when absent, exactly as in
the engine object literals. -/
def encodeErrorField : Option AppError → List (String × WireVal)
  | none => []
  | some e => [("error", encodeAppError e)]

/-- Wire shape of a `ResponseBody` object literal. -/
def encodeResponseBody (b : ResponseBody) : WireVal :=
  .vobj ([("text", encodeOptText b.text), ("isBase64", .vbool b.isBase64),
          ("truncated", .vbool b.truncated)] ++ encodeErrorField b.error)

/-- Wire shape of a `RequestBody` object literal. -/
def encodeRequestBody (b : RequestBody) : WireVal :=
  .vobj ([("text", encodeOptText b.text), ("truncated", .vbool b.truncated)] ++
         encodeErrorField b.error)

/-- Wire shape of a `ResponseRecord` object literal. -/
def encodeResponseRecord (r : ResponseRecord) : WireVal :=
  .vobj [("id", .vstr r.id), ("url", .vstr r.url), ("method", .vstr r.method),
         ("status", .vnum r.status), ("mimeType", .vstr r.mimeType),
         ("resourceType", .vstr r.resourceType), ("timeStamp", .vnum r.timeStamp),
         ("encodedDataLength", .vnum r.encodedDataLength),
         ("requestBody", encodeRequestBody r.requestBody),
         ("body", encodeResponseBody r.body)]

/-- Wire shape of the nullable `attachedTabId` field. -/
def encodeOptInt : Option Int → WireVal
  | none => .vnull
  | some n => .vnum n

/-- Wire shape of each outbound message the engine broadcasts, following the
object literals in `broadcast`, `sendSnapshot`, `sendStatusUpdate`,
`sendError` and `pushRecord`. -/
def encodeMessage : BackgroundToPanelMessage → WireVal
  | .statusUpdate a => .vobj [("type", .vstr "status.update"), ("attachedTabId", encodeOptInt a)]
  | .recordsSnapshot rs a =>
    .vobj [("type", .vstr "records.snapshot"), ("records", .varr (rs.map encodeResponseRecord)),
           ("attachedTabId", encodeOptInt a)]
  | .recordsAdded r => .vobj [("type", .vstr "records.added"), ("record", encodeResponseRecord r)]
  | .errorMessage e => .vobj [("type", .vstr "error"), ("error", encodeAppError e)]

/-! ## Background engine (`src/background/index.ts`) -/

/-- Capacity of the record ring buffer (`MAX_RECORDS`). -/
def MAX_RECORDS : Nat := 200

/-- Response-size threshold in bytes (`MAX_BODY_BYTES`). -/
def MAX_BODY_BYTES : Int := 200 * 1024

/-- Request-size threshold in bytes (`MAX_REQUEST_BODY_BYTES`). -/
def MAX_REQUEST_BODY_BYTES : Nat := 200 * 1024

/-- Allowed resource types (`ALLOWED_RESOURCE_TYPES`): Fetch and XHR only. -/
def isAllowedResourceType (value : String) : Bool :=
  value == "Fetch" || value == "XHR"

/-- UTF-8 byte length of a string (`TEXT_ENCODER.encode(text).length`). -/
def getTextByteLength (text : String) : Nat := text.utf8ByteSize

/-- The `createError` constructor; `cause` is `vundefined` when the two-argument
form is used. -/
def createError (code message : String) (cause : WireVal) : AppError :=
  ⟨code, message, cause⟩

/-- An external effect on the instrumentation source: the attach/detach
handshakes and `chrome.debugger.sendCommand` invocations. -/
inductive ExternalOp where
  | debuggerAttach (tabId : Int)
  | debuggerDetach (tabId : Int)
  | command (tabId : Int) (method : String) (requestId : Option String)

/-- Whether an external op is a response body-read command. -/
def ExternalOp.isResponseBodyRead : ExternalOp → Bool
  | .command _ m _ => m == "Network.getResponseBody"
  | _ => false

/-- The mutable per-request accretion record (`PendingRequest`). -/
structure PendingRequest where
  requestId : String
  url : String
  method : String
  hasPostData : Bool
  requestPostData : Option String
  status : Int
  mimeType : String
  resourceType : String
  timeStamp : Int

/-- The mutable session state of the engine: `attachedTabId`, the pending-request
map (insertion-ordered, keyed by requestId) and the record buffer. -/
structure EngineState where
  attachedTabId : Option Int
  pendingRequests : List (String × PendingRequest)
  recordBuffer : List ResponseRecord

/-- Result of one engine operation: the new state, the broadcasts emitted (in
order), the external commands issued (in order), and whether the operation
completed without throwing. -/
structure StepResult where
  state : EngineState
  broadcasts : List BackgroundToPanelMessage
  ops : List ExternalOp
  ok : Bool

/-- `Map.get` on the pending-request map. -/
def mapGet : List (String × PendingRequest) → String → Option PendingRequest
  | [], _ => none
  | (k, v) :: rest, key => if k = key then some v else mapGet rest key

/-- `Map.set` on the pending-request map: replaces in place when the key
exists, appends otherwise. -/
def mapSet (entries : List (String × PendingRequest)) (key : String)
    (v : PendingRequest) : List (String × PendingRequest) :=
  if entries.any (fun p => p.1 == key) then
    entries.map (fun p => if p.1 == key then (key, v) else p)
  else entries ++ [(key, v)]

/-- `Map.delete` on the pending-request map. -/
def mapDelete (entries : List (String × PendingRequest)) (key : String) :
    List (String × PendingRequest) :=
  entries.filter (fun p => p.1 != key)

/-- `pushRecord` on the record buffer: when the buffer is full, `shift()`
drops the single oldest entry, then the new record is appended. (The
`records.added` broadcast is accounted for at each call site.) -/
def pushRecord (buffer : List ResponseRecord) (record : ResponseRecord) :
    List ResponseRecord :=
  (if buffer.length ≥ MAX_RECORDS then buffer.tail else buffer) ++ [record]

/-- `buildResponseBody`: over-threshold declared lengths short-circuit with a
`BODY_TOO_LARGE` error and no command; otherwise a `Network.getResponseBody`
command is issued, whose outcome is supplied by the `oracle`. -/
def buildResponseBody (tabId : Int) (requestId : String) (encodedDataLength : Int)
    (oracle : Except WireVal WireVal) : ResponseBody × List ExternalOp :=
  if encodedDataLength > MAX_BODY_BYTES then
    (⟨none, false, true, some (createError "BODY_TOO_LARGE" "响应体超过阈值，已跳过" .vundefined)⟩, [])
  else
    match oracle with
    | .ok result =>
      (⟨asString (getField result "body"),
        (asBoolean (getField result "base64Encoded")).getD false, false, none⟩,
       [.command tabId "Network.getResponseBody" (some requestId)])
    | .error e =>
      (⟨none, false, false, some (createError "BODY_READ_FAILED" "读取响应体失败" e)⟩,
       [.command tabId "Network.getResponseBody" (some requestId)])

/-- `buildRequestBody`: no indicated post-data returns immediately; inline
post-data is threshold-checked directly; otherwise (with a non-null tab) a
`Network.getRequestPostData` command is issued and its text, if any, is
threshold-checked before acceptance. -/
def buildRequestBody (tabId : Option Int) (requestId : String) (hasPostData : Bool)
    (requestPostData : Option String) (oracle : Except WireVal WireVal) :
    RequestBody × List ExternalOp :=
  if hasPostData = false ∧ requestPostData = none then
    (⟨none, false, none⟩, [])
  else
    match requestPostData with
    | some s =>
      if getTextByteLength s > MAX_REQUEST_BODY_BYTES then
        (⟨none, true, some (createError "REQUEST_BODY_TOO_LARGE" "请求体超过阈值，已跳过。" .vundefined)⟩, [])
      else
        (⟨some s, false, none⟩, [])
    | none =>
      match tabId with
      | none => (⟨none, false, none⟩, [])
      | some tid =>
        match oracle with
        | .error e =>
          (⟨none, false, some (createError "REQUEST_BODY_READ_FAILED" "读取请求体失败" e)⟩,
           [.command tid "Network.getRequestPostData" (some requestId)])
        | .ok result =>
          match asString (getField result "postData") with
          | none => (⟨none, false, none⟩, [.command tid "Network.getRequestPostData" (some requestId)])
          | some s =>
            if getTextByteLength s > MAX_REQUEST_BODY_BYTES then
              (⟨none, true, some (createError "REQUEST_BODY_TOO_LARGE" "请求体超过阈值，已跳过。" .vundefined)⟩,
               [.command tid "Network.getRequestPostData" (some requestId)])
            else
              (⟨some s, false, none⟩, [.command tid "Network.getRequestPostData" (some requestId)])

/-- Engine-side `parseRequestWillBeSent`; `now` stands for `Date.now()`.
The pending starts with status 0 and an empty mimeType. -/
def parseRequestWillBeSent (value : WireVal) (now : Int) : Option PendingRequest :=
  if isRecord value then
    match strOk (asString (getField value "requestId")) with
    | none => none
    | some requestId =>
      if isRecord (getField value "request") then
        match strOk (asString (getField (getField value "request") "url")),
              strOk (asString (getField (getField value "request") "method")) with
        | some url, some method =>
          let requestPostData := asString (getField (getField value "request") "postData")
          let hasPostData := asBoolean (getField (getField value "request") "hasPostData")
          let resolvedHasPostData := hasPostData.getD requestPostData.isSome
          match strOk (asString (getField value "type")) with
          | some resourceType =>
            if isAllowedResourceType resourceType then
              some ⟨requestId, url, method, resolvedHasPostData, requestPostData, 0, "",
                    resourceType, now⟩
            else none
          | none => none
        | _, _ => none
      else none
  else none

/-- The truthiness-gated allow-list check of `applyResponseReceived`:
`if (resourceType && !isAllowedResourceType(resourceType)) return null`.
An empty string is falsy and so skips the allow-list check. -/
def resourceTypeRejected : Option String → Bool
  | some s => decide (s ≠ "") && !(isAllowedResourceType s)
  | none => false

/-- Engine-side `applyResponseReceived`: merges status and mimeType and takes
the event resource type when present (`resourceType ?? pending.resourceType`). -/
def applyResponseReceived (pending : PendingRequest) (value : WireVal) :
    Option PendingRequest :=
  if isRecord value then
    if isRecord (getField value "response") then
      match asNumber (getField (getField value "response") "status"),
            strOk (asString (getField (getField value "response") "mimeType")) with
      | some status, some mimeType =>
        if resourceTypeRejected (asString (getField value "type")) then none
        else
          some { pending with
                 status := status, mimeType := mimeType,
                 resourceType := (asString (getField value "type")).getD pending.resourceType }
      | _, _ => none
    else none
  else none

/-- Engine-side `parseLoadingFinished`. -/
def parseLoadingFinished (value : WireVal) : Option (String × Int) :=
  if isRecord value then
    match strOk (asString (getField value "requestId")) with
    | none => none
    | some requestId =>
      match asNumber (getField value "encodedDataLength") with
      | none => none
      | some encodedDataLength => some (requestId, encodedDataLength)
  else none

/-- Engine-side `parseLoadingFailed`. -/
def parseLoadingFailed (value : WireVal) : Option String :=
  if isRecord value then strOk (asString (getField value "requestId")) else none

/-- `handleLoadingFinished`: looks up the pending, resolves both bodies (the
two oracles stand for the async command results), removes the pending and
pushes the assembled record, broadcasting `records.added`. -/
def handleLoadingFinished (st : EngineState) (requestId : String)
    (encodedDataLength : Int) (reqOracle respOracle : Except WireVal WireVal) :
    StepResult :=
  match st.attachedTabId with
  | none => ⟨st, [], [], true⟩
  | some tabId =>
    match mapGet st.pendingRequests requestId with
    | none => ⟨st, [], [], true⟩
    | some pending =>
      let rb := buildRequestBody (some tabId) requestId pending.hasPostData
        pending.requestPostData reqOracle
      let bb := buildResponseBody tabId requestId encodedDataLength respOracle
      let record : ResponseRecord :=
        ⟨requestId, pending.url, pending.method, pending.status, pending.mimeType,
         pending.resourceType, pending.timeStamp, encodedDataLength, rb.1, bb.1⟩
      ⟨⟨st.attachedTabId, mapDelete st.pendingRequests requestId,
        pushRecord st.recordBuffer record⟩,
       [.recordsAdded record], rb.2 ++ bb.2, true⟩

/-- `handleLoadingFailed`: synthesizes the `REQUEST_FAILED` response body with
`encodedDataLength` 0, still resolves the request body, removes the pending
and pushes the record. -/
def handleLoadingFailed (st : EngineState) (requestId : String)
    (reqOracle : Except WireVal WireVal) : StepResult :=
  match st.attachedTabId with
  | none => ⟨st, [], [], true⟩
  | some tabId =>
    match mapGet st.pendingRequests requestId with
    | none => ⟨st, [], [], true⟩
    | some pending =>
      let rb := buildRequestBody (some tabId) requestId pending.hasPostData
        pending.requestPostData reqOracle
      let body : ResponseBody :=
        ⟨none, false, false, some (createError "REQUEST_FAILED" "请求失败，未获取响应体" .vundefined)⟩
      let record : ResponseRecord :=
        ⟨requestId, pending.url, pending.method, pending.status, pending.mimeType,
         pending.resourceType, pending.timeStamp, 0, rb.1, body⟩
      ⟨⟨st.attachedTabId, mapDelete st.pendingRequests requestId,
        pushRecord st.recordBuffer record⟩,
       [.recordsAdded record], rb.2, true⟩

/-- `detachFromTab`: a no-op unless currently attached to exactly this tab;
otherwise releases the debugger, clears `attachedTabId` and the pending map
(the record buffer is kept) and broadcasts a status update. -/
def detachFromTab (st : EngineState) (tabId : Int) : StepResult :=
  if st.attachedTabId = some tabId then
    ⟨⟨none, [], st.recordBuffer⟩, [.statusUpdate none], [.debuggerDetach tabId], true⟩
  else ⟨st, [], [], true⟩

/-- `attachToTab`: a no-op when already attached to this tab; otherwise first
detaches from any other tab, clears the pending map and record buffer,
performs the attach handshake and `Network.enable` (whose outcomes are the
two oracles), and on success records the tab and broadcasts a status update
followed by a fresh snapshot. -/
def attachToTab (st : EngineState) (tabId : Int)
    (attachResult enableResult : Except WireVal Unit) : StepResult :=
  if st.attachedTabId = some tabId then ⟨st, [], [], true⟩
  else
    let d : StepResult :=
      match st.attachedTabId with
      | some prev => detachFromTab st prev
      | none => ⟨st, [], [], true⟩
    let st1 : EngineState := ⟨d.state.attachedTabId, [], []⟩
    match attachResult with
    | .error _ => ⟨st1, d.broadcasts, d.ops ++ [.debuggerAttach tabId], false⟩
    | .ok _ =>
      match enableResult with
      | .error _ =>
        ⟨st1, d.broadcasts,
         d.ops ++ [.debuggerAttach tabId, .command tabId "Network.enable" none], false⟩
      | .ok _ =>
        ⟨⟨some tabId, [], []⟩,
         d.broadcasts ++ [.statusUpdate (some tabId), .recordsSnapshot [] (some tabId)],
         d.ops ++ [.debuggerAttach tabId, .command tabId "Network.enable" none], true⟩

/-- The event-source guard of `handleDebuggerEvent`: in the source,
source.tabId may be undefined and attachedTabId may be null, and the strict
inequality never identifies those two, so an event proceeds exactly when
both ids are present and equal. -/
def debuggeeMatches : Option Int → Option Int → Bool
  | some sourceId, some attachedId => sourceId == attachedId
  | _, _ => false

/-- `handleDebuggerEvent`: drops events for other targets (and all events
while unattached), then routes the four `Network.*` event kinds. -/
def handleDebuggerEvent (st : EngineState) (sourceTabId : Option Int) (method : String)
    (params : WireVal) (now : Int) (reqOracle respOracle : Except WireVal WireVal) :
    StepResult :=
  if !(debuggeeMatches sourceTabId st.attachedTabId) then ⟨st, [], [], true⟩
  else if method = "Network.requestWillBeSent" then
    match parseRequestWillBeSent params now with
    | none => ⟨st, [], [], true⟩
    | some pending =>
      ⟨⟨st.attachedTabId, mapSet st.pendingRequests pending.requestId pending,
        st.recordBuffer⟩, [], [], true⟩
  else if method = "Network.responseReceived" then
    if isRecord params then
      match strOk (asString (getField params "requestId")) with
      | none => ⟨st, [], [], true⟩
      | some requestId =>
        match mapGet st.pendingRequests requestId with
        | none => ⟨st, [], [], true⟩
        | some existing =>
          match applyResponseReceived existing params with
          | none => ⟨st, [], [], true⟩
          | some updated =>
            ⟨⟨st.attachedTabId, mapSet st.pendingRequests requestId updated,
              st.recordBuffer⟩, [], [], true⟩
    else ⟨st, [], [], true⟩
  else if method = "Network.loadingFinished" then
    match parseLoadingFinished params with
    | none => ⟨st, [], [], true⟩
    | some info => handleLoadingFinished st info.1 info.2 reqOracle respOracle
  else if method = "Network.loadingFailed" then
    match parseLoadingFailed params with
    | none => ⟨st, [], [], true⟩
    | some requestId => handleLoadingFailed st requestId reqOracle
  else ⟨st, [], [], true⟩

/-- The synchronous prefix shared by `handleLoadingFinished` and
`handleLoadingFailed`, everything before their first await: the attachment
check and the pending lookup, capturing the attached tab and the pending
request into locals. A `none` result is the early return: the handler ends
with no effects and launches no body fetches. -/
def terminalEventEntry (st : EngineState) (requestId : String) :
    Option (Int × PendingRequest) :=
  match st.attachedTabId with
  | none => none
  | some tabId =>
    match mapGet st.pendingRequests requestId with
    | none => none
    | some pending => some (tabId, pending)

/-- The continuation of `handleLoadingFinished` after its body fetches
settle, resumed against whatever engine state is current at that moment.
The source re-checks neither the attachment nor the pending table after its
awaits: the record is assembled from the captured pending, the requestId is
deleted from the now-current table (a no-op if a reset already cleared it)
and the record is pushed and broadcast unconditionally. -/
def loadingFinishedResume (stAtResume : EngineState) (requestId : String)
    (encodedDataLength : Int) (tabIdAtEntry : Int) (pending : PendingRequest)
    (reqOracle respOracle : Except WireVal WireVal) : StepResult :=
  let rb := buildRequestBody (some tabIdAtEntry) requestId pending.hasPostData
    pending.requestPostData reqOracle
  let bb := buildResponseBody tabIdAtEntry requestId encodedDataLength respOracle
  let record : ResponseRecord :=
    ⟨requestId, pending.url, pending.method, pending.status, pending.mimeType,
     pending.resourceType, pending.timeStamp, encodedDataLength, rb.1, bb.1⟩
  ⟨⟨stAtResume.attachedTabId, mapDelete stAtResume.pendingRequests requestId,
    pushRecord stAtResume.recordBuffer record⟩,
   [.recordsAdded record], rb.2 ++ bb.2, true⟩

/-- The continuation of `handleLoadingFailed` after its request-body fetch
settles, resumed against whatever engine state is current at that moment;
like the finished path it re-checks nothing and pushes unconditionally. -/
def loadingFailedResume (stAtResume : EngineState) (requestId : String)
    (tabIdAtEntry : Int) (pending : PendingRequest)
    (reqOracle : Except WireVal WireVal) : StepResult :=
  let rb := buildRequestBody (some tabIdAtEntry) requestId pending.hasPostData
    pending.requestPostData reqOracle
  let body : ResponseBody :=
    ⟨none, false, false, some (createError "REQUEST_FAILED" "请求失败，未获取响应体" .vundefined)⟩
  let record : ResponseRecord :=
    ⟨requestId, pending.url, pending.method, pending.status, pending.mimeType,
     pending.resourceType, pending.timeStamp, 0, rb.1, body⟩
  ⟨⟨stAtResume.attachedTabId, mapDelete stAtResume.pendingRequests requestId,
    pushRecord stAtResume.recordBuffer record⟩,
   [.recordsAdded record], rb.2, true⟩

def appErrorWf (e : AppError) : Bool := e.code != "" && e.message != ""

def optErrorWf : Option AppError → Bool
  | none => true
  | some e => appErrorWf e

def responseBodyWf (b : ResponseBody) : Bool := optErrorWf b.error

def requestBodyWf (b : RequestBody) : Bool := optErrorWf b.error

def responseRecordWf (r : ResponseRecord) : Bool :=
  r.id != "" && r.url != "" && r.method != "" && r.mimeType != "" && r.resourceType != "" &&
  requestBodyWf r.requestBody && responseBodyWf r.body

def messageWf : BackgroundToPanelMessage → Bool
  | .statusUpdate _ => true
  | .recordsSnapshot rs _ => rs.all responseRecordWf
  | .recordsAdded r => responseRecordWf r
  | .errorMessage e => appErrorWf e

theorem parseAppError_vobj (code msg : String) (cause : WireVal)
    (h1 : code ≠ "") (h2 : msg ≠ "") :
    parseAppError (.vobj [("code", .vstr code), ("message", .vstr msg), ("cause", cause)]) =
      some ⟨code, msg, cause⟩ := by
  simp [parseAppError, isRecord, getField, lookupField, strOk, asString, h1, h2]

theorem parseAppError_encode (e : AppError) (h : appErrorWf e = true) :
    parseAppError (encodeAppError e) = some e := by
  obtain ⟨h1, h2⟩ : e.code ≠ "" ∧ e.message ≠ "" := by
    simpa [appErrorWf] using h
  exact parseAppError_vobj e.code e.message e.cause h1 h2

theorem parseResponseBody_encode (b : ResponseBody) (h : responseBodyWf b = true) :
    parseResponseBody (encodeResponseBody b) = some b := by
  obtain ⟨text, isBase64, truncated, error⟩ := b
  cases error with
  | none =>
    cases text <;>
      simp [parseResponseBody, encodeResponseBody, encodeErrorField, encodeOptText,
        parseOptText, isRecord, getField, lookupField, asString, asBoolean]
  | some e =>
    obtain ⟨h1, h2⟩ : e.code ≠ "" ∧ e.message ≠ "" := by
      simpa [responseBodyWf, optErrorWf, appErrorWf] using h
    cases text <;>
      simp [parseResponseBody, encodeResponseBody, encodeErrorField, encodeOptText,
        parseOptText, isRecord, getField, lookupField, asString, asBoolean,
        encodeAppError, parseAppError_vobj e.code e.message e.cause h1 h2]

theorem parseRequestBody_encode (b : RequestBody) (h : requestBodyWf b = true) :
    parseRequestBody (encodeRequestBody b) = some b := by
  obtain ⟨text, truncated, error⟩ := b
  cases error with
  | none =>
    cases text <;>
      simp [parseRequestBody, encodeRequestBody, encodeErrorField, encodeOptText,
        parseOptText, isRecord, getField, lookupField, asString, asBoolean]
  | some e =>
    obtain ⟨h1, h2⟩ : e.code ≠ "" ∧ e.message ≠ "" := by
      simpa [requestBodyWf, optErrorWf, appErrorWf] using h
    cases text <;>
      simp [parseRequestBody, encodeRequestBody, encodeErrorField, encodeOptText,
        parseOptText, isRecord, getField, lookupField, asString, asBoolean,
        encodeAppError, parseAppError_vobj e.code e.message e.cause h1 h2]


theorem parseResponseRecord_encode (r : ResponseRecord) (h : responseRecordWf r = true) :
    parseResponseRecord (encodeResponseRecord r) = some r := by
  obtain ⟨hid, hurl, hmethod, hmime, hres, hreq, hbody⟩ :
      r.id ≠ "" ∧ r.url ≠ "" ∧ r.method ≠ "" ∧ r.mimeType ≠ "" ∧ r.resourceType ≠ "" ∧
      requestBodyWf r.requestBody = true ∧ responseBodyWf r.body = true := by
    simpa [responseRecordWf, and_assoc] using h
  simp [parseResponseRecord, encodeResponseRecord, isRecord, getField, lookupField,
    asString, asNumber, strOk, hid, hurl, hmethod, hmime, hres,
    parseRequestBody_encode r.requestBody hreq, parseResponseBody_encode r.body hbody]

theorem parseRecordList_encode (rs : List ResponseRecord) (h : rs.all responseRecordWf = true) :
    parseRecordList (rs.map encodeResponseRecord) = some rs := by
  induction rs with
  | nil => rfl
  | cons r rest ih =>
    obtain ⟨h1, h2⟩ : responseRecordWf r = true ∧ rest.all responseRecordWf = true := by
      simpa using h
    simp [parseRecordList, parseResponseRecord_encode r h1, ih h2]

theorem parseBackgroundMessage_encode (m : BackgroundToPanelMessage)
    (h : messageWf m = true) :
    parseBackgroundMessage (encodeMessage m) = some m := by
  cases m with
  | statusUpdate a => cases a <;> rfl
  | recordsSnapshot rs a =>
    have hrs : rs.all responseRecordWf = true := by simpa [messageWf] using h
    cases a <;>
      simp [parseBackgroundMessage, encodeMessage, isRecord, getField, lookupField,
        asString, strOk, parseAttachedTabId, encodeOptInt, parseRecordList_encode rs hrs]
  | recordsAdded r =>
    have hr : responseRecordWf r = true := by simpa [messageWf] using h
    simp [parseBackgroundMessage, encodeMessage, isRecord, getField, lookupField,
      asString, strOk, parseResponseRecord_encode r hr]
  | errorMessage e =>
    have he : appErrorWf e = true := by simpa [messageWf] using h
    simp [parseBackgroundMessage, encodeMessage, isRecord, getField, lookupField,
      asString, strOk, parseAppError_encode e he]




/-- A concrete well-formed record, as produced by the finished path for a
request whose response headers were merged. -/
def sampleRecord : ResponseRecord :=
  ⟨"r1", "https://x/y", "GET", 200, "application/json", "Fetch", 1000, 10,
   ⟨none, false, none⟩, ⟨some "abc", false, false, none⟩⟩

/-- C1 (amended): every outbound message all of whose embedded records carry
non-empty id, url, method, mimeType and resourceType, and all of whose
embedded errors carry non-empty code and message, is accepted by the panel
parser and reconstructed equal. -/
theorem c1_outbound_message_roundtrip (m : BackgroundToPanelMessage)
    (h : messageWf m = true) :
    parseBackgroundMessage (encodeMessage m) = some m :=
  parseBackgroundMessage_encode m h

/-- C1 witness: the round trip at a concrete engine-shaped `records.added`
message. -/
theorem c1_outbound_message_roundtrip_witness :
    messageWf (.recordsAdded sampleRecord) = true ∧
    parseBackgroundMessage (encodeMessage (.recordsAdded sampleRecord)) =
      some (.recordsAdded sampleRecord) :=
  ⟨rfl, c1_outbound_message_roundtrip (.recordsAdded sampleRecord) rfl⟩

/-- The raw `Network.requestWillBeSent` params of a request that fails before
any response headers arrive. -/
def announcedParams : WireVal :=
  .vobj [("requestId", .vstr "r1"),
         ("request", .vobj [("url", .vstr "https://x/y"), ("method", .vstr "GET")]),
         ("type", .vstr "Fetch")]

/-- Engine state right after the announcement: one pending request whose
mimeType is still the empty string. -/
def announcedState : EngineState :=
  (handleDebuggerEvent ⟨some 7, [], []⟩ (some 7) "Network.requestWillBeSent"
    announcedParams 1000 (.ok .vundefined) (.ok .vundefined)).state

/-- C1 counterexample: a loading-failed completion for a request that never
received response headers makes the engine broadcast a `records.added`
message (and push a record) whose mimeType is the empty string; the panel
parser rejects both the message and the bare record. -/
theorem c1_counterexample :
    (handleLoadingFailed announcedState "r1" (.ok .vundefined)).broadcasts.map
        (fun m => parseBackgroundMessage (encodeMessage m)) = [none] ∧
    (handleLoadingFailed announcedState "r1" (.ok .vundefined)).state.recordBuffer.map
        (fun r => parseResponseRecord (encodeResponseRecord r)) = [none] :=
  ⟨rfl, rfl⟩


theorem tail_drop_eq {α : Type} (l : List α) (n : Nat) :
    (l.drop n).tail = l.drop (n + 1) := by
  induction l generalizing n with
  | nil => simp
  | cons a rest ih =>
    cases n with
    | zero => simp
    | succ m => exact ih m

theorem drop_append_of_le {α : Type} (l1 l2 : List α) (n : Nat) (h : n ≤ l1.length) :
    (l1 ++ l2).drop n = l1.drop n ++ l2 := by
  induction l1 generalizing n with
  | nil =>
    have hn : n = 0 := Nat.le_zero.mp (by simpa using h)
    simp [hn]
  | cons a rest ih =>
    cases n with
    | zero => simp
    | succ m => simpa using ih m (by simpa using h)

theorem foldl_pushRecord_spec (rs : List ResponseRecord) :
    rs.foldl pushRecord [] = rs.drop (rs.length - MAX_RECORDS) ∧
    (rs.foldl pushRecord []).length = min rs.length MAX_RECORDS := by
  have hM : MAX_RECORDS = 200 := rfl
  induction rs using List.reverseRecOn with
  | nil => simp
  | append_singleton rs r ih =>
    obtain ⟨ihEq, ihLen⟩ := ih
    have hfold : (rs ++ [r]).foldl pushRecord [] = pushRecord (rs.foldl pushRecord []) r := by
      simp [List.foldl_append]
    by_cases hlen : rs.length < MAX_RECORDS
    · have hcond : ¬ (rs.foldl pushRecord []).length ≥ MAX_RECORDS := by
        rw [ihLen]; omega
      have hdrop : rs.length - MAX_RECORDS = 0 := by omega
      have h3 : (rs ++ [r]).length - MAX_RECORDS = 0 := by
        simp only [List.length_append, List.length_cons, List.length_nil]
        omega
      constructor
      · rw [hfold, pushRecord, if_neg hcond, ihEq, hdrop, h3]
        simp
      · rw [hfold, pushRecord, if_neg hcond]
        simp only [List.length_append, List.length_cons, List.length_nil, ihLen]
        omega
    · have hcond : (rs.foldl pushRecord []).length ≥ MAX_RECORDS := by
        rw [ihLen]; omega
      have h2 : rs.length - MAX_RECORDS + 1 ≤ rs.length := by omega
      have h1 : (rs ++ [r]).length - MAX_RECORDS = rs.length - MAX_RECORDS + 1 := by
        simp only [List.length_append, List.length_cons, List.length_nil]
        omega
      constructor
      · rw [hfold, pushRecord, if_pos hcond, ihEq, tail_drop_eq, h1,
           drop_append_of_le rs [r] _ h2]
      · rw [hfold, pushRecord, if_pos hcond]
        simp only [List.length_append, List.length_cons, List.length_nil,
          List.length_tail, ihLen]
        omega

/-- C2: starting from an empty buffer, after any sequence of pushes the
Record Store holds exactly min(N, MAX_RECORDS) records, namely the
MAX_RECORDS most recently pushed ones in oldest-to-newest order (everything
before them — and only that — has been evicted). -/
theorem c2_record_store_fifo (rs : List ResponseRecord) :
    (rs.foldl pushRecord []).length = min rs.length MAX_RECORDS ∧
    rs.foldl pushRecord [] = rs.drop (rs.length - MAX_RECORDS) :=
  ⟨(foldl_pushRecord_spec rs).2, (foldl_pushRecord_spec rs).1⟩


/-- C3: a response whose declared encoded length exceeds the threshold
short-circuits with text absent, truncated true and a BODY_TOO_LARGE error,
and issues no external command at all. -/
theorem c3_body_too_large_short_circuit (tabId : Int) (requestId : String)
    (encodedDataLength : Int) (oracle : Except WireVal WireVal)
    (h : encodedDataLength > MAX_BODY_BYTES) :
    buildResponseBody tabId requestId encodedDataLength oracle =
      (⟨none, false, true, some (createError "BODY_TOO_LARGE" "响应体超过阈值，已跳过" .vundefined)⟩,
       []) := by
  simp [buildResponseBody, h]

/-- C3 witness: the spec scenario with declared length 500000 against the
204800-byte threshold. -/
theorem c3_body_too_large_short_circuit_witness :
    (500000 : Int) > MAX_BODY_BYTES ∧
    buildResponseBody 7 "r1" 500000 (.ok .vundefined) =
      (⟨none, false, true, some (createError "BODY_TOO_LARGE" "响应体超过阈值，已跳过" .vundefined)⟩,
       []) :=
  ⟨by decide, c3_body_too_large_short_circuit 7 "r1" 500000 (.ok .vundefined) (by decide)⟩

/-- C4: a request with hasPostData false and no inline post-data yields text
absent, truncated false, no error, and issues no read command. -/
theorem c4_no_post_data (tabId : Option Int) (requestId : String)
    (oracle : Except WireVal WireVal) :
    buildRequestBody tabId requestId false none oracle = (⟨none, false, none⟩, []) := by
  simp [buildRequestBody]


theorem attachToTab_ok_state (st : EngineState) (t : Int) (a e : Except WireVal Unit)
    (hcur : st.attachedTabId ≠ some t) (hok : (attachToTab st t a e).ok = true) :
    (attachToTab st t a e).state = ⟨some t, [], []⟩ := by
  cases a with
  | error w =>
    exfalso
    cases hA : st.attachedTabId <;> simp_all [attachToTab, detachFromTab, hcur, hA]
  | ok u =>
    cases e with
    | error w =>
      exfalso
      cases hA : st.attachedTabId <;> simp_all [attachToTab, detachFromTab, hcur, hA]
    | ok u2 =>
      cases hA : st.attachedTabId <;> simp_all [attachToTab, detachFromTab, hcur, hA]

/-- C5: attaching to the tab that is already attached is a true no-op (same
state, no broadcasts, no handshake, reported success); consequently two
consecutive attaches to the same tab are observably equivalent to one,
whenever the first one succeeded. -/
theorem c5_attach_idempotent (st : EngineState) (t : Int)
    (a1 e1 a2 e2 : Except WireVal Unit) :
    (st.attachedTabId = some t → attachToTab st t a1 e1 = ⟨st, [], [], true⟩) ∧
    ((attachToTab st t a1 e1).ok = true →
      attachToTab (attachToTab st t a1 e1).state t a2 e2 =
        ⟨(attachToTab st t a1 e1).state, [], [], true⟩) := by
  constructor
  · intro h
    simp [attachToTab, h]
  · intro hok
    by_cases hcur : st.attachedTabId = some t
    · have hfst : attachToTab st t a1 e1 = ⟨st, [], [], true⟩ := by simp [attachToTab, hcur]
      rw [hfst]
      simp [attachToTab, hcur]
    · have hst : (attachToTab st t a1 e1).state = ⟨some t, [], []⟩ :=
        attachToTab_ok_state st t a1 e1 hcur hok
      rw [hst]
      simp [attachToTab]

/-- C5 witness: attaching twice to tab 7 from an already-attached state. -/
theorem c5_attach_idempotent_witness :
    attachToTab ⟨some 7, [], []⟩ 7 (.ok ()) (.ok ()) = ⟨⟨some 7, [], []⟩, [], [], true⟩ ∧
    attachToTab (attachToTab ⟨some 7, [], []⟩ 7 (.ok ()) (.ok ())).state 7 (.ok ()) (.ok ()) =
      ⟨(attachToTab ⟨some 7, [], []⟩ 7 (.ok ()) (.ok ())).state, [], [], true⟩ :=
  ⟨(c5_attach_idempotent ⟨some 7, [], []⟩ 7 (.ok ()) (.ok ()) (.ok ()) (.ok ())).1 rfl,
   (c5_attach_idempotent ⟨some 7, [], []⟩ 7 (.ok ()) (.ok ()) (.ok ()) (.ok ())).2 rfl⟩

/-- C6: detaching from a tab the engine is not attached to leaves the state
unchanged and emits no broadcast and no external operation. -/
theorem c6_detach_not_attached_noop (st : EngineState) (t : Int)
    (h : st.attachedTabId ≠ some t) :
    detachFromTab st t = ⟨st, [], [], true⟩ := by
  simp [detachFromTab, h]

/-- C6 witness: detaching tab 5 while unattached, and while attached to 7. -/
theorem c6_detach_not_attached_noop_witness :
    detachFromTab ⟨none, [], []⟩ 5 = ⟨⟨none, [], []⟩, [], [], true⟩ ∧
    detachFromTab ⟨some 7, [], []⟩ 5 = ⟨⟨some 7, [], []⟩, [], [], true⟩ :=
  ⟨c6_detach_not_attached_noop ⟨none, [], []⟩ 5 (by decide),
   c6_detach_not_attached_noop ⟨some 7, [], []⟩ 5 (by decide)⟩


theorem handleLoadingFinished_noop_empty (t : Int) (buf : List ResponseRecord)
    (rid : String) (len : Int) (o1 o2 : Except WireVal WireVal) :
    handleLoadingFinished ⟨some t, [], buf⟩ rid len o1 o2 =
      ⟨⟨some t, [], buf⟩, [], [], true⟩ := by
  simp [handleLoadingFinished, mapGet]

theorem handleLoadingFailed_noop_empty (t : Int) (buf : List ResponseRecord)
    (rid : String) (o : Except WireVal WireVal) :
    handleLoadingFailed ⟨some t, [], buf⟩ rid o = ⟨⟨some t, [], buf⟩, [], [], true⟩ := by
  simp [handleLoadingFailed, mapGet]

theorem handleLoadingFinished_decomposes (st : EngineState) (rid : String) (len : Int)
    (o1 o2 : Except WireVal WireVal) :
    handleLoadingFinished st rid len o1 o2 =
      match terminalEventEntry st rid with
      | none => ⟨st, [], [], true⟩
      | some (tid, p) => loadingFinishedResume st rid len tid p o1 o2 := by
  cases hA : st.attachedTabId with
  | none => simp [handleLoadingFinished, terminalEventEntry, hA]
  | some t =>
    cases hP : mapGet st.pendingRequests rid with
    | none => simp [handleLoadingFinished, terminalEventEntry, hA, hP]
    | some p =>
      simp [handleLoadingFinished, terminalEventEntry, loadingFinishedResume, hA, hP]

theorem handleLoadingFailed_decomposes (st : EngineState) (rid : String)
    (o : Except WireVal WireVal) :
    handleLoadingFailed st rid o =
      match terminalEventEntry st rid with
      | none => ⟨st, [], [], true⟩
      | some (tid, p) => loadingFailedResume st rid tid p o := by
  cases hA : st.attachedTabId with
  | none => simp [handleLoadingFailed, terminalEventEntry, hA]
  | some t =>
    cases hP : mapGet st.pendingRequests rid with
    | none => simp [handleLoadingFailed, terminalEventEntry, hA, hP]
    | some p =>
      simp [handleLoadingFailed, terminalEventEntry, loadingFailedResume, hA, hP]

/-- C8 (amended): a detach or a new attach clears the Pending Request Table,
so a terminal event processed after the clear finds no matching entry and is
discarded with no push and no broadcast; this stale-result disposal, however,
only covers the handler entry. A completion whose handler already captured
its pending before the clear — its body fetches in flight across the clear —
re-checks nothing on resume and still deletes the id, pushes its record and
broadcasts records.added against whatever state is current, a cleared one
included. -/
theorem c8_clear_versus_inflight_completion (st : EngineState) (t : Int)
    (a e : Except WireVal Unit) (rid : String) (len : Int) (tid : Int)
    (p : PendingRequest) (o1 o2 o3 o4 o5 o6 o7 o8 o9 : Except WireVal WireVal) :
    (st.attachedTabId ≠ some t → (attachToTab st t a e).ok = true →
      handleLoadingFinished (attachToTab st t a e).state rid len o1 o2 =
        ⟨(attachToTab st t a e).state, [], [], true⟩ ∧
      handleLoadingFailed (attachToTab st t a e).state rid o3 =
        ⟨(attachToTab st t a e).state, [], [], true⟩) ∧
    (st.attachedTabId = some t →
      handleLoadingFinished (detachFromTab st t).state rid len o4 o5 =
        ⟨(detachFromTab st t).state, [], [], true⟩ ∧
      handleLoadingFailed (detachFromTab st t).state rid o6 =
        ⟨(detachFromTab st t).state, [], [], true⟩) ∧
    (∀ stAtResume : EngineState, ∃ rec : ResponseRecord,
      loadingFinishedResume stAtResume rid len tid p o7 o8 =
        ⟨⟨stAtResume.attachedTabId, mapDelete stAtResume.pendingRequests rid,
          pushRecord stAtResume.recordBuffer rec⟩, [.recordsAdded rec],
         (buildRequestBody (some tid) rid p.hasPostData p.requestPostData o7).2 ++
           (buildResponseBody tid rid len o8).2, true⟩ ∧
      rec.id = rid ∧ rec.encodedDataLength = len) ∧
    (∀ stAtResume : EngineState, ∃ rec : ResponseRecord,
      loadingFailedResume stAtResume rid tid p o9 =
        ⟨⟨stAtResume.attachedTabId, mapDelete stAtResume.pendingRequests rid,
          pushRecord stAtResume.recordBuffer rec⟩, [.recordsAdded rec],
         (buildRequestBody (some tid) rid p.hasPostData p.requestPostData o9).2, true⟩ ∧
      rec.id = rid ∧ rec.encodedDataLength = 0) := by
  refine ⟨?_, ?_, ?_, ?_⟩
  · intro hcur hok
    rw [attachToTab_ok_state st t a e hcur hok]
    exact ⟨handleLoadingFinished_noop_empty t [] rid len o1 o2,
           handleLoadingFailed_noop_empty t [] rid o3⟩
  · intro hcur
    have hd : (detachFromTab st t).state = ⟨none, [], st.recordBuffer⟩ := by
      simp [detachFromTab, hcur]
    rw [hd]
    exact ⟨rfl, rfl⟩
  · intro stAtResume
    exact ⟨⟨rid, p.url, p.method, p.status, p.mimeType, p.resourceType, p.timeStamp, len,
      (buildRequestBody (some tid) rid p.hasPostData p.requestPostData o7).1,
      (buildResponseBody tid rid len o8).1⟩, rfl, rfl, rfl⟩
  · intro stAtResume
    exact ⟨⟨rid, p.url, p.method, p.status, p.mimeType, p.resourceType, p.timeStamp, 0,
      (buildRequestBody (some tid) rid p.hasPostData p.requestPostData o9).1,
      ⟨none, false, false,
       some (createError "REQUEST_FAILED" "请求失败，未获取响应体" .vundefined)⟩⟩,
      rfl, rfl, rfl⟩

/-- A concrete pending request used by the C8 witness and counterexample:
announced, response headers merged, terminal event still outstanding. -/
def pend8 : PendingRequest :=
  ⟨"r1", "https://x/y", "GET", false, none, 200, "application/json", "Fetch", 5⟩

/-- The record the resumed finished-path continuation assembles from `pend8`
when both body fetches resolve to an empty result object. -/
def rec8 : ResponseRecord :=
  ⟨"r1", "https://x/y", "GET", 200, "application/json", "Fetch", 5, 10,
   ⟨none, false, none⟩, ⟨none, false, false, none⟩⟩

/-- C8 witness: completions whose terminal event arrives after an attach or
detach cleared the table are discarded, and the resumed continuation of an
already-entered handler pushes against the cleared detach state. -/
theorem c8_clear_versus_inflight_completion_witness :
    ((⟨some 3, [("r1", pend8)], []⟩ : EngineState).attachedTabId ≠ some 7 ∧
      (attachToTab ⟨some 3, [("r1", pend8)], []⟩ 7 (.ok ()) (.ok ())).ok = true ∧
      handleLoadingFinished (attachToTab ⟨some 3, [("r1", pend8)], []⟩ 7 (.ok ()) (.ok ())).state
          "r1" 10 (.ok .vundefined) (.ok .vundefined) =
        ⟨(attachToTab ⟨some 3, [("r1", pend8)], []⟩ 7 (.ok ()) (.ok ())).state, [], [], true⟩) ∧
    ((⟨some 3, [("r1", pend8)], []⟩ : EngineState).attachedTabId = some 3 ∧
      handleLoadingFailed (detachFromTab ⟨some 3, [("r1", pend8)], []⟩ 3).state "r1"
          (.ok .vundefined) =
        ⟨(detachFromTab ⟨some 3, [("r1", pend8)], []⟩ 3).state, [], [], true⟩) ∧
    (∃ rec : ResponseRecord,
      loadingFinishedResume (detachFromTab ⟨some 3, [("r1", pend8)], []⟩ 3).state "r1" 10 3 pend8
          (.ok .vundefined) (.ok .vundefined) =
        ⟨⟨(detachFromTab ⟨some 3, [("r1", pend8)], []⟩ 3).state.attachedTabId,
          mapDelete (detachFromTab ⟨some 3, [("r1", pend8)], []⟩ 3).state.pendingRequests "r1",
          pushRecord (detachFromTab ⟨some 3, [("r1", pend8)], []⟩ 3).state.recordBuffer rec⟩,
         [.recordsAdded rec],
         (buildRequestBody (some 3) "r1" pend8.hasPostData pend8.requestPostData
             (.ok .vundefined)).2 ++
           (buildResponseBody 3 "r1" 10 (.ok .vundefined)).2, true⟩ ∧
      rec.id = "r1" ∧ rec.encodedDataLength = 10) :=
  ⟨⟨by decide, rfl,
    ((c8_clear_versus_inflight_completion ⟨some 3, [("r1", pend8)], []⟩ 7
        (.ok ()) (.ok ()) "r1" 10 3 pend8 (.ok .vundefined) (.ok .vundefined) (.ok .vundefined)
        (.ok .vundefined) (.ok .vundefined) (.ok .vundefined) (.ok .vundefined)
        (.ok .vundefined) (.ok .vundefined)).1 (by decide) rfl).1⟩,
   ⟨rfl,
    ((c8_clear_versus_inflight_completion ⟨some 3, [("r1", pend8)], []⟩ 3
        (.ok ()) (.ok ()) "r1" 10 3 pend8 (.ok .vundefined) (.ok .vundefined) (.ok .vundefined)
        (.ok .vundefined) (.ok .vundefined) (.ok .vundefined) (.ok .vundefined)
        (.ok .vundefined) (.ok .vundefined)).2.1 rfl).2⟩,
   (c8_clear_versus_inflight_completion ⟨some 3, [("r1", pend8)], []⟩ 3
      (.ok ()) (.ok ()) "r1" 10 3 pend8 (.ok .vundefined) (.ok .vundefined) (.ok .vundefined)
      (.ok .vundefined) (.ok .vundefined) (.ok .vundefined) (.ok .vundefined)
      (.ok .vundefined) (.ok .vundefined)).2.2.1
     (detachFromTab ⟨some 3, [("r1", pend8)], []⟩ 3).state⟩

/-- C8 counterexample: the handler entry for r1 passes its checks and
captures the pending (the body fetches go in flight), a detach then clears
the Pending Request Table, yet the resumed continuation still pushes a
record for r1 into the Record Store and broadcasts records.added — the claim
says the completion for the since-cleared requestId is discarded with no
push and no broadcast. -/
theorem c8_counterexample :
    terminalEventEntry ⟨some 7, [("r1", pend8)], []⟩ "r1" = some (7, pend8) ∧
    (detachFromTab ⟨some 7, [("r1", pend8)], []⟩ 7).state = ⟨none, [], []⟩ ∧
    (loadingFinishedResume (detachFromTab ⟨some 7, [("r1", pend8)], []⟩ 7).state
        "r1" 10 7 pend8 (.ok .vundefined) (.ok .vundefined)).broadcasts =
      [.recordsAdded rec8] ∧
    (loadingFinishedResume (detachFromTab ⟨some 7, [("r1", pend8)], []⟩ 7).state
        "r1" 10 7 pend8 (.ok .vundefined) (.ok .vundefined)).state.recordBuffer = [rec8] :=
  ⟨rfl, rfl, rfl, rfl⟩


theorem buildRequestBody_no_response_read (tabId : Option Int) (requestId : String)
    (hasPostData : Bool) (requestPostData : Option String)
    (oracle : Except WireVal WireVal) :
    (buildRequestBody tabId requestId hasPostData requestPostData oracle).2.all
      (fun op => ! op.isResponseBodyRead) = true := by
  unfold buildRequestBody
  split
  · rfl
  · cases requestPostData with
    | some s =>
      by_cases hlen : getTextByteLength s > MAX_REQUEST_BODY_BYTES <;>
        simp [hlen]
    | none =>
      cases tabId with
      | none => rfl
      | some tid =>
        cases oracle with
        | error w => simp [ExternalOp.isResponseBodyRead]
        | ok result =>
          cases hres : asString (getField result "postData") with
          | none => simp [hres, ExternalOp.isResponseBodyRead]
          | some s =>
            by_cases hlen : getTextByteLength s > MAX_REQUEST_BODY_BYTES <;>
              simp [hres, hlen, ExternalOp.isResponseBodyRead]

/-- C9: a loading-failed event with a live pending request produces exactly
one record, whose response body is the synthesized REQUEST_FAILED one (text
absent, not truncated), whose request body is whatever the request-body
resolution produced, removes the pending, pushes the record and broadcasts
it, while issuing only the request-body commands — never a response
body-read. -/
theorem c9_loading_failed_synthesizes_record (st : EngineState) (tid : Int)
    (rid : String) (p : PendingRequest) (oracle : Except WireVal WireVal)
    (hAttached : st.attachedTabId = some tid)
    (hPending : mapGet st.pendingRequests rid = some p) :
    ∃ rec : ResponseRecord,
      handleLoadingFailed st rid oracle =
        ⟨⟨some tid, mapDelete st.pendingRequests rid, pushRecord st.recordBuffer rec⟩,
         [.recordsAdded rec],
         (buildRequestBody (some tid) rid p.hasPostData p.requestPostData oracle).2, true⟩ ∧
      rec.body = ⟨none, false, false,
        some (createError "REQUEST_FAILED" "请求失败，未获取响应体" .vundefined)⟩ ∧
      rec.requestBody = (buildRequestBody (some tid) rid p.hasPostData p.requestPostData oracle).1 ∧
      (handleLoadingFailed st rid oracle).ops.all (fun op => ! op.isResponseBodyRead) = true := by
  refine ⟨⟨rid, p.url, p.method, p.status, p.mimeType, p.resourceType, p.timeStamp, 0,
    (buildRequestBody (some tid) rid p.hasPostData p.requestPostData oracle).1,
    ⟨none, false, false, some (createError "REQUEST_FAILED" "请求失败，未获取响应体" .vundefined)⟩⟩,
    ?_, rfl, rfl, ?_⟩
  · simp [handleLoadingFailed, hAttached, hPending]
  · simp only [handleLoadingFailed, hAttached, hPending]
    exact buildRequestBody_no_response_read (some tid) rid p.hasPostData p.requestPostData oracle

/-- C9 witness: a concrete failed request with inline post-data. -/
theorem c9_loading_failed_synthesizes_record_witness :
    (⟨some 7, [("r1", ⟨"r1", "https://x/y", "POST", true, some "k=v", 200, "text/html", "XHR", 5⟩)], []⟩ :
        EngineState).attachedTabId = some 7 ∧
    mapGet [("r1", ⟨"r1", "https://x/y", "POST", true, some "k=v", 200, "text/html", "XHR", 5⟩)] "r1" =
      some ⟨"r1", "https://x/y", "POST", true, some "k=v", 200, "text/html", "XHR", 5⟩ ∧
    (∃ rec : ResponseRecord,
      handleLoadingFailed
          ⟨some 7, [("r1", ⟨"r1", "https://x/y", "POST", true, some "k=v", 200, "text/html", "XHR", 5⟩)], []⟩
          "r1" (.ok .vundefined) =
        ⟨⟨some 7,
          mapDelete [("r1", ⟨"r1", "https://x/y", "POST", true, some "k=v", 200, "text/html", "XHR", 5⟩)] "r1",
          pushRecord [] rec⟩,
         [.recordsAdded rec],
         (buildRequestBody (some 7) "r1" true (some "k=v") (.ok .vundefined)).2, true⟩ ∧
      rec.body = ⟨none, false, false,
        some (createError "REQUEST_FAILED" "请求失败，未获取响应体" .vundefined)⟩ ∧
      rec.requestBody = (buildRequestBody (some 7) "r1" true (some "k=v") (.ok .vundefined)).1 ∧
      (handleLoadingFailed
          ⟨some 7, [("r1", ⟨"r1", "https://x/y", "POST", true, some "k=v", 200, "text/html", "XHR", 5⟩)], []⟩
          "r1" (.ok .vundefined)).ops.all (fun op => ! op.isResponseBodyRead) = true) :=
  ⟨rfl, rfl,
   c9_loading_failed_synthesizes_record
     ⟨some 7, [("r1", ⟨"r1", "https://x/y", "POST", true, some "k=v", 200, "text/html", "XHR", 5⟩)], []⟩
     7 "r1" ⟨"r1", "https://x/y", "POST", true, some "k=v", 200, "text/html", "XHR", 5⟩
     (.ok .vundefined) rfl rfl⟩

/-- C10: the loading-failed path always records encodedDataLength 0, while
the loading-finished path records exactly the event-declared length. -/
theorem c10_encoded_data_length (st : EngineState) (tid : Int) (rid : String)
    (p : PendingRequest) (len : Int) (o1 o2 o3 : Except WireVal WireVal)
    (hAttached : st.attachedTabId = some tid)
    (hPending : mapGet st.pendingRequests rid = some p) :
    (∃ rec : ResponseRecord,
      (handleLoadingFailed st rid o1).broadcasts = [.recordsAdded rec] ∧
      (handleLoadingFailed st rid o1).state.recordBuffer = pushRecord st.recordBuffer rec ∧
      rec.encodedDataLength = 0) ∧
    (∃ rec : ResponseRecord,
      (handleLoadingFinished st rid len o2 o3).broadcasts = [.recordsAdded rec] ∧
      (handleLoadingFinished st rid len o2 o3).state.recordBuffer =
        pushRecord st.recordBuffer rec ∧
      rec.encodedDataLength = len) := by
  constructor
  · refine ⟨⟨rid, p.url, p.method, p.status, p.mimeType, p.resourceType, p.timeStamp, 0,
      (buildRequestBody (some tid) rid p.hasPostData p.requestPostData o1).1,
      ⟨none, false, false, some (createError "REQUEST_FAILED" "请求失败，未获取响应体" .vundefined)⟩⟩,
      ?_, ?_, rfl⟩ <;>
      simp [handleLoadingFailed, hAttached, hPending]
  · refine ⟨⟨rid, p.url, p.method, p.status, p.mimeType, p.resourceType, p.timeStamp, len,
      (buildRequestBody (some tid) rid p.hasPostData p.requestPostData o2).1,
      (buildResponseBody tid rid len o3).1⟩, ?_, ?_, rfl⟩ <;>
      simp [handleLoadingFinished, hAttached, hPending]

/-- C10 witness: the failed path records 0 and the finished path records 10
for the same concrete pending request. -/
theorem c10_encoded_data_length_witness :
    (⟨some 7, [("r1", ⟨"r1", "https://x/y", "GET", false, none, 200, "text/html", "XHR", 5⟩)], []⟩ :
        EngineState).attachedTabId = some 7 ∧
    (∃ rec : ResponseRecord,
      (handleLoadingFailed
          ⟨some 7, [("r1", ⟨"r1", "https://x/y", "GET", false, none, 200, "text/html", "XHR", 5⟩)], []⟩
          "r1" (.ok .vundefined)).broadcasts = [.recordsAdded rec] ∧
      (handleLoadingFailed
          ⟨some 7, [("r1", ⟨"r1", "https://x/y", "GET", false, none, 200, "text/html", "XHR", 5⟩)], []⟩
          "r1" (.ok .vundefined)).state.recordBuffer = pushRecord [] rec ∧
      rec.encodedDataLength = 0) ∧
    (∃ rec : ResponseRecord,
      (handleLoadingFinished
          ⟨some 7, [("r1", ⟨"r1", "https://x/y", "GET", false, none, 200, "text/html", "XHR", 5⟩)], []⟩
          "r1" 10 (.ok .vundefined) (.ok .vundefined)).broadcasts = [.recordsAdded rec] ∧
      (handleLoadingFinished
          ⟨some 7, [("r1", ⟨"r1", "https://x/y", "GET", false, none, 200, "text/html", "XHR", 5⟩)], []⟩
          "r1" 10 (.ok .vundefined) (.ok .vundefined)).state.recordBuffer = pushRecord [] rec ∧
      rec.encodedDataLength = 10) :=
  ⟨rfl,
   (c10_encoded_data_length
     ⟨some 7, [("r1", ⟨"r1", "https://x/y", "GET", false, none, 200, "text/html", "XHR", 5⟩)], []⟩
     7 "r1" ⟨"r1", "https://x/y", "GET", false, none, 200, "text/html", "XHR", 5⟩
     10 (.ok .vundefined) (.ok .vundefined) (.ok .vundefined) rfl rfl).1,
   (c10_encoded_data_length
     ⟨some 7, [("r1", ⟨"r1", "https://x/y", "GET", false, none, 200, "text/html", "XHR", 5⟩)], []⟩
     7 "r1" ⟨"r1", "https://x/y", "GET", false, none, 200, "text/html", "XHR", 5⟩
     10 (.ok .vundefined) (.ok .vundefined) (.ok .vundefined) rfl rfl).2⟩


/-- C7 (amended): a non-rejected response-headers event merges the status and
mimeType of the event into the pending request and, whenever the event
carries a string resourceType (the allow-list gate only rejects non-empty
disallowed values), also replaces the resourceType of the pending with it; requestId, url,
method, hasPostData, inline post-data and the first-seen timestamp are left
unchanged, and resourceType is unchanged when the event carries no string
type. -/
theorem c7_response_received_merge (p : PendingRequest) (v : WireVal)
    (q : PendingRequest) (h : applyResponseReceived p v = some q) :
    q.requestId = p.requestId ∧ q.url = p.url ∧ q.method = p.method ∧
    q.hasPostData = p.hasPostData ∧ q.requestPostData = p.requestPostData ∧
    q.timeStamp = p.timeStamp ∧
    asNumber (getField (getField v "response") "status") = some q.status ∧
    strOk (asString (getField (getField v "response") "mimeType")) = some q.mimeType ∧
    q.resourceType = (asString (getField v "type")).getD p.resourceType := by
  unfold applyResponseReceived at h
  split at h
  · split at h
    · split at h
      · split at h
        · exact absurd h (by simp)
        · rename_i status mimeType heq1 heq2 hrt
          rw [Option.some_inj] at h
          subst h
          exact ⟨rfl, rfl, rfl, rfl, rfl, rfl, heq1, heq2, rfl⟩
      · exact absurd h (by simp)
    · exact absurd h (by simp)
  · exact absurd h (by simp)

/-- C7 witness: a response-headers event with no resourceType field merges
status 200 and mimeType text/html into the pending and keeps its XHR
resource type. -/
theorem c7_response_received_merge_witness :
    applyResponseReceived ⟨"r1", "https://x/y", "GET", false, none, 0, "", "XHR", 5⟩
        (.vobj [("response", .vobj [("status", .vnum 200), ("mimeType", .vstr "text/html")])]) =
      some ⟨"r1", "https://x/y", "GET", false, none, 200, "text/html", "XHR", 5⟩ ∧
    (⟨"r1", "https://x/y", "GET", false, none, 200, "text/html", "XHR", 5⟩ :
        PendingRequest).resourceType =
      (asString (getField
          (.vobj [("response", .vobj [("status", .vnum 200), ("mimeType", .vstr "text/html")])])
          "type")).getD
        (⟨"r1", "https://x/y", "GET", false, none, 0, "", "XHR", 5⟩ : PendingRequest).resourceType :=
  ⟨rfl,
   (c7_response_received_merge ⟨"r1", "https://x/y", "GET", false, none, 0, "", "XHR", 5⟩
     (.vobj [("response", .vobj [("status", .vnum 200), ("mimeType", .vstr "text/html")])])
     ⟨"r1", "https://x/y", "GET", false, none, 200, "text/html", "XHR", 5⟩ rfl).2.2.2.2.2.2.2.2⟩

/-- C7 counterexample: a response-headers event that passes the allow-list
check (type Fetch) against a pending whose resourceType is XHR is not
ignored, and the merge rewrites resourceType from XHR to Fetch — the claim
says every field other than status and mimeType is left unchanged. -/
theorem c7_counterexample :
    applyResponseReceived ⟨"r1", "https://x/y", "GET", false, none, 0, "", "XHR", 5⟩
        (.vobj [("response", .vobj [("status", .vnum 200), ("mimeType", .vstr "text/html")]),
                ("type", .vstr "Fetch")]) =
      some ⟨"r1", "https://x/y", "GET", false, none, 200, "text/html", "Fetch", 5⟩ ∧
    ("Fetch" : String) ≠
      (⟨"r1", "https://x/y", "GET", false, none, 0, "", "XHR", 5⟩ : PendingRequest).resourceType :=
  ⟨rfl, by decide⟩

end MvCapture
